import Mathlib

/-!
Verification development for the cluster routing core of the
`actix-redis-cluster` repository (`src/cluster.rs`, `src/command.rs`,
`src/lib.rs`).  The Rust source is shallowly embedded: pure functions
become Lean functions, the stateful actor handlers become explicit
state-passing functions on a state record, machine integers become
`Nat`/`Int` with explicit truncation where the source casts.
-/

/-- RESP wire values, mirroring `redis_async::resp::RespValue`
(`Nil | SimpleString | Error | Integer(i64) | BulkString | Array`).
Bulk strings carry UTF-8 text in this development, matching every use of
bulk strings in the repository. -/
inductive RespValue where
  | nil
  | simpleString (s : String)
  | error (e : String)
  | integer (i : Int)
  | bulkString (s : String)
  | array (vs : List RespValue)

/-- Protocol-level error, mirroring the single constructor of
`redis_async::error::Error` used by the repository:
`Error::RESP(message, Some(frame))`. -/
inductive RespError where
  | resp (msg : String) (frame : Option RespValue)

/-- Modelled from the spec: `slot::HashError` (the module `src/slot.rs` is
referenced from `lib.rs` and `command.rs` but absent from the sources).
Per the spec, multi-slot key sets "fail with `MultipleSlot` listing the
offending slot numbers", e.g. `Err(MultipleSlot([15495,3300]))`. -/
inductive HashError where
  | multipleSlot (slots : List Nat)
  deriving DecidableEq, Repr

/-- The unified error enum of `src/lib.rs`
(`Redis | NotConnected | Disconnected | MultipleSlot | IoError`). -/
inductive Error where
  | redis (e : RespError)
  | notConnected
  | disconnected
  | multipleSlot (e : HashError)
  | ioError

/-- UTF-8 encoding of one Unicode scalar value, byte list as `Nat`s.
Used to model hashing over the bytes of a Rust `&str`. -/
def encodeCharUtf8 (c : Char) : List Nat :=
  let n := c.toNat
  if n < 128 then [n]
  else if n < 2048 then
    [192 ||| (n >>> 6), 128 ||| (n &&& 63)]
  else if n < 65536 then
    [224 ||| (n >>> 12), 128 ||| ((n >>> 6) &&& 63), 128 ||| (n &&& 63)]
  else
    [240 ||| (n >>> 18), 128 ||| ((n >>> 12) &&& 63),
     128 ||| ((n >>> 6) &&& 63), 128 ||| (n &&& 63)]

/-- UTF-8 bytes of a character list. -/
def charsUtf8 (cs : List Char) : List Nat :=
  cs.foldr (fun c acc => encodeCharUtf8 c ++ acc) []

/-- One byte step of CRC16/XMODEM (polynomial 0x1021, init 0,
no reflection, no final xor). -/
def crc16Step (crc b : Nat) : Nat :=
  let crc := (crc ^^^ (b <<< 8)) &&& 65535
  (List.range 8).foldl
    (fun c _ =>
      if c &&& 32768 ≠ 0 then ((c <<< 1) ^^^ 4129) &&& 65535
      else (c <<< 1) &&& 65535)
    crc

/-- CRC16/XMODEM over a byte list. -/
def crc16 (bs : List Nat) : Nat := bs.foldl crc16Step 0

/-- The character `{` (written via its code point to keep braces out of
string and character literals). -/
def lbraceChar : Char := Char.ofNat 123

/-- The character `}`. -/
def rbraceChar : Char := Char.ofNat 125

/-- Scan for the closing brace of a hash tag, returning the tag content
if a closing brace exists. -/
def takeUntilRBrace : List Char → Option (List Char)
  | [] => none
  | c :: cs =>
    if c = rbraceChar then some []
    else (takeUntilRBrace cs).map (fun t => c :: t)

/-- Modelled from the spec (`src/slot.rs` is absent from the sources):
"extract the hash tag — the substring between the first `\x7b` and the
next `\x7d` with nonempty content; if absent, hash the whole key".
Boundary cases fixed by the spec: an empty tag falls back to the whole
key; only the first tag counts. -/
def findHashTag : List Char → Option (List Char)
  | [] => none
  | c :: cs =>
    if c = lbraceChar then
      match takeUntilRBrace cs with
      | some [] => none
      | some tag => some tag
      | none => none
    else findHashTag cs

/-- Modelled from the spec: the byte sequence actually hashed for a key
(the hash tag when present and nonempty, otherwise the whole key). -/
def hashTagBytes (key : String) : List Nat :=
  match findHashTag key.data with
  | some tag => charsUtf8 tag
  | none => charsUtf8 key.data

/-- Modelled from the spec: the slot of one key,
`CRC16(hash-tag-or-key) mod 16384`. -/
def slotOf (key : String) : Nat := crc16 (hashTagBytes key) % 16384

/-- Modelled from the spec: the multi-key slot aggregator `slot::Hasher`;
its state is an optional slot. -/
structure Hasher where
  slot : Option Nat
  deriving DecidableEq, Repr

/-- Modelled from the spec: `Hasher::new`. -/
def Hasher.new : Hasher := ⟨none⟩

/-- Modelled from the spec: feeding a slot into the hasher transitions
`None → Some(s)` or asserts equality with the stored slot, failing with
the two offending slot numbers. -/
def Hasher.feed (h : Hasher) (s : Nat) : Except HashError Hasher :=
  match h.slot with
  | none => Except.ok ⟨some s⟩
  | some t => if t = s then Except.ok h else Except.error (.multipleSlot [t, s])

/-- Modelled from the spec: `Hasher::hash_str` hashes a key string and
feeds its slot. -/
def Hasher.hashStr (h : Hasher) (k : String) : Except HashError Hasher :=
  h.feed (slotOf k)

/-- Modelled from the spec: `Hasher::set` pins an explicit slot. -/
def Hasher.set (h : Hasher) (s : Nat) : Except HashError Hasher :=
  h.feed s

/-- Modelled from the spec: `Hasher::get` returns the aggregated slot. -/
def Hasher.get (h : Hasher) : Option Nat := h.slot

/-- `MAX_RETRY` from `src/cluster.rs` line 20. -/
def MAX_RETRY : Nat := 16

/-- Embeds Rust `str::starts_with` for ASCII patterns as a character-list
prefix test (byte prefix and character prefix agree here). -/
def strStartsWith (s p : String) : Bool :=
  p.data.isPrefixOf s.data

/-- The space character (by code point). -/
def spaceChar : Char := Char.ofNat 32

/-- Embeds Rust `str::split(c)`: splits at every occurrence of the
character, keeping empty pieces, and yields one (possibly empty) piece
for the empty string. -/
def splitOnChar (c : Char) : List Char → List (List Char)
  | [] => [[]]
  | x :: rest =>
    let r := splitOnChar c rest
    if x = c then [] :: r
    else
      match r with
      | h :: t => (x :: h) :: t
      | [] => [[x]]

/-- The redirect target extracted from a `MOVED`/`ASK` error text in
`Handler<RawRequest<M>>::handle`: the source calls `e.split(' ')` and
takes the third piece (the source `unwrap`s; an absent piece is modelled
as the empty string, unreachable for the well-formed errors the claims
concern). -/
def redirectTarget (e : String) : String :=
  String.mk (((splitOnChar spaceChar e.data).drop 2).headD [])

/-- The action decided by the reply-continuation of
`Handler<RawRequest<M>>::handle` (`src/cluster.rs` lines 347-434):
* `movedRetry addr retry` — the MOVED branch: set `stale_slots`, connect
  to `addr` if absent, and re-send the original frame to `addr` with the
  given (incremented) retry counter;
* `askRetry addr askingRetry resendRetry` — the ASK branch: connect to
  `addr` if absent, spawn a fire-and-forget `ASKING` command to `addr`
  carrying `askingRetry`, and re-send the original frame to `addr` with
  `resendRetry`;
* `finish res` — hand `res` to `M::from_response` and return the result
  to the caller (a redirect error that is not retried surfaces here);
* `failure e` — propagate the channel error `e` to the caller. -/
inductive RetryStep where
  | movedRetry (addr : String) (req : RespValue) (retry : Nat)
  | askRetry (addr : String) (req : RespValue) (askingRetry resendRetry : Nat)
  | finish (res : RespValue)
  | failure (e : Error)

/-- The decision taken by the reply-continuation of
`Handler<RawRequest<M>>::handle` on the reply `res` to the frame `req`
sent with retry counter `retry`, translated arm by arm from
`src/cluster.rs` lines 347-434.  Note: the MOVED arm is guarded by
`retry < MAX_RETRY`, the ASK arm is guarded only by the `ASK` prefix. -/
def handleRawResult (req : RespValue) (retry : Nat) (res : Except Error RespValue) :
    RetryStep :=
  match res with
  | Except.ok (RespValue.error e) =>
    if strStartsWith e ("MOVED") = true ∧ retry < MAX_RETRY then
      RetryStep.movedRetry (redirectTarget e) req (retry + 1)
    else if strStartsWith e ("ASK") = true then
      RetryStep.askRetry (redirectTarget e) req retry retry
    else
      RetryStep.finish (RespValue.error e)
  | Except.ok r => RetryStep.finish r
  | Except.error e => RetryStep.failure e

/-- `struct Slots` of `src/cluster.rs` (a slot range with its master
address); the source field `end` is rendered `stop`. -/
structure Slots where
  start : Nat
  stop : Nat
  masterAddr : String
  deriving DecidableEq, Repr

/-- The state of `RedisClusterActor` (`src/cluster.rs` lines 58-63).
The connection registry `nodes : HashMap<String, Node>` is embedded as an
association list mapping a node address to its in-flight FIFO queue of
pending one-shot senders (waiters are identified by `Nat` tokens; the
framed write half carries no state relevant to the claims). -/
structure RedisClusterActor where
  addrs : List String
  nodes : List (String × List Nat)
  staleSlots : Bool
  slots : List Slots
  deriving DecidableEq, Repr

/-- Association-list lookup standing for `HashMap::get` on the node
registry. -/
def lookupNode : List (String × List Nat) → String → Option (List Nat)
  | [], _ => none
  | (n, q) :: rest, name => if n = name then some q else lookupNode rest name

/-- Replace the queue stored under a name (the in-place mutation done
through `HashMap::get_mut`). -/
def setQueue : List (String × List Nat) → String → List Nat → List (String × List Nat)
  | [], _, _ => []
  | (n, q) :: rest, name, q2 =>
    if n = name then (n, q2) :: rest else (n, q) :: setQueue rest name q2

/-- `StreamHandler::handle` (`src/cluster.rs` lines 132-155): an inbound
reply frame `res` from node `name` pops the head waiter of that node's
queue and resolves it with `Ok(res)`; if the node is unknown or its queue
is empty the frame is only logged.  Returns the updated state and the
resolved waiter (if any) with its frame. -/
def streamHandle (st : RedisClusterActor) (name : String) (res : RespValue) :
    RedisClusterActor × Option (Nat × RespValue) :=
  match lookupNode st.nodes name with
  | some q =>
    match q with
    | tx :: rest =>
      ({ st with nodes := setQueue st.nodes name rest }, some (tx, res))
    | [] => (st, none)
  | none => (st, none)

/-- `Supervised::restarting` (`src/cluster.rs` lines 89-93): the restart
hook clears the connection registry (`self.nodes.clear()`) and nothing
else. -/
def restarting (st : RedisClusterActor) : RedisClusterActor :=
  { st with nodes := [] }

/-- The linear scan of `choose_node_addr` over the slot table
(`src/cluster.rs` lines 170-180): first range whose inclusive bounds
contain the slot wins. -/
def findSlotMaster : List Slots → Nat → Option String
  | [], _ => none
  | e :: rest, s =>
    if e.start ≤ s ∧ s ≤ e.stop then some e.masterAddr
    else findSlotMaster rest s

/-- `random_node_addr` (`src/cluster.rs` lines 158-168) samples one key
of the connection registry at random; the sampler is a parameter `rnd`
(the claims constrain it to return a member of a nonempty list and
`none` for the empty list, the semantics of `rand::seq::sample_iter`
with one sample). -/
def randomNodeAddr (st : RedisClusterActor) (rnd : List String → Option String) :
    Option String :=
  rnd (st.nodes.map Prod.fst)

/-- `choose_node_addr` (`src/cluster.rs` lines 170-180): scan the slot
table when a slot is given; fall back to a random connected node when no
range matches or when the command has no slot. -/
def chooseNodeAddr (st : RedisClusterActor) (slot : Option Nat)
    (rnd : List String → Option String) : Option String :=
  match slot with
  | some s =>
    match findSlotMaster st.slots s with
    | some a => some a
    | none => randomNodeAddr st rnd
  | none => randomNodeAddr st rnd

/-- Outcome of the dispatch handler: fail the call, or send the frame to
a node with retry counter 0 (wrapping it in `RawRequest`). -/
inductive DispatchResult where
  | fail (e : Error)
  | send (addr : String) (req : RespValue) (retry : Nat)

/-- `Handler<M>::handle` (`src/cluster.rs` lines 451-476): reject
multi-slot key sets with `MultipleSlot`, otherwise pick a node via
`choose_node_addr`; with no node the call fails `NotConnected`, else the
serialized frame is sent as `RawRequest(addr, req, 0)`. -/
def handleCommand (st : RedisClusterActor) (keySlot : Except HashError (Option Nat))
    (req : RespValue) (rnd : List String → Option String) : DispatchResult :=
  match keySlot with
  | Except.error e => DispatchResult.fail (Error.multipleSlot e)
  | Except.ok slot =>
    match chooseNodeAddr st slot rnd with
    | none => DispatchResult.fail Error.notConnected
    | some a => DispatchResult.send a req 0

/-- The slot-table rebuild in `retrieve_cluster_slots`
(`src/cluster.rs` lines 250-270): entries `(start, end, addrs)` with a
nonempty address list contribute a range whose master is the first
address; empty entries are skipped. -/
def clusterSlotsTable (v : List (Nat × Nat × List String)) : List Slots :=
  v.filterMap fun e =>
    match e with
    | (start, stop, addrs) =>
      match addrs with
      | [] => none
      | m :: _ => some ⟨start, stop, m⟩

/-- The state update of `retrieve_cluster_slots` (`src/cluster.rs`
lines 240-277) on completion of the `CLUSTER SLOTS` request: on success
clear `stale_slots` and replace the whole table; on failure only log —
the state is untouched and no error reaches any caller.  (The eager
`connect_to_node` calls on the masters resolve asynchronously and do not
modify the registry within this update.) -/
def applyRefresh (st : RedisClusterActor)
    (res : Except Error (List (Nat × Nat × List String))) : RedisClusterActor :=
  match res with
  | Except.ok v => { st with staleSlots := false, slots := clusterSlotsTable v }
  | Except.error _ => st

/-- Shorthand for a RESP bulk string (the `resp_array!` macro of the
source turns every `String` argument into a `BulkString`). -/
def bulk (s : String) : RespValue := RespValue.bulkString s

/-- `struct Get` of `src/command.rs`. -/
structure Get where
  key : String
  deriving DecidableEq, Repr

/-- `Get::into_request`: `resp_array!["GET", self.key]`. -/
def Get.intoRequest (c : Get) : RespValue :=
  RespValue.array [bulk ("GET"), bulk c.key]

/-- `Get::from_response`: `BulkString → Some`, `Nil → None`, anything
else is a protocol error. -/
def Get.fromResponse (res : RespValue) : Except RespError (Option String) :=
  match res with
  | RespValue.bulkString s => Except.ok (some s)
  | RespValue.nil => Except.ok none
  | res => Except.error (RespError.resp ("invalid response for GET") (some res))

/-- `Get::hash_keys`: hash the single key. -/
def Get.hashKeys (c : Get) (h : Hasher) : Except HashError Hasher :=
  h.hashStr c.key

/-- The `Command::key_slot` default method instantiated at `Get`. -/
def Get.keySlot (c : Get) : Except HashError (Option Nat) :=
  match c.hashKeys Hasher.new with
  | Except.ok h => Except.ok h.get
  | Except.error e => Except.error e

/-- `enum Expiration` of `src/command.rs`. -/
inductive Expiration where
  | infinite
  | ex (s : String)
  | px (s : String)
  deriving DecidableEq, Repr

/-- `struct Set` of `src/command.rs` (named `SetCmd` here because `Set`
is taken by Mathlib). -/
structure SetCmd where
  key : String
  value : String
  expiration : Expiration
  deriving DecidableEq, Repr

/-- `Set::into_request`. -/
def SetCmd.intoRequest (c : SetCmd) : RespValue :=
  match c.expiration with
  | Expiration.infinite => RespValue.array [bulk ("SET"), bulk c.key, bulk c.value]
  | Expiration.ex e =>
    RespValue.array [bulk ("SET"), bulk c.key, bulk c.value, bulk ("EX"), bulk e]
  | Expiration.px p =>
    RespValue.array [bulk ("SET"), bulk c.key, bulk c.value, bulk ("PX"), bulk p]

/-- `struct Del` of `src/command.rs`. -/
structure Del where
  keys : List String
  deriving DecidableEq, Repr

/-- `Del::into_request`: a `DEL` bulk string followed by the keys. -/
def Del.intoRequest (c : Del) : RespValue :=
  RespValue.array (bulk ("DEL") :: c.keys.map bulk)

/-- `Del::hash_keys` (`src/command.rs` lines 177-183): feed every key
into the hasher, aborting on the first multi-slot conflict. -/
def Del.hashKeysFrom (keys : List String) (h : Hasher) : Except HashError Hasher :=
  match keys with
  | [] => Except.ok h
  | k :: rest =>
    match h.hashStr k with
    | Except.ok h2 => Del.hashKeysFrom rest h2
    | Except.error e => Except.error e

/-- The `Command::key_slot` default method instantiated at `Del`:
run `hash_keys` on a fresh hasher and read off the aggregated slot. -/
def Del.keySlot (c : Del) : Except HashError (Option Nat) :=
  match Del.hashKeysFrom c.keys Hasher.new with
  | Except.ok h => Except.ok h.get
  | Except.error e => Except.error e

/-- `struct Asking` of `src/command.rs`; its request frame is the bare
`ASKING` array. -/
def Asking.intoRequest : RespValue := RespValue.array [bulk ("ASKING")]

/-- `enum TtlError` of `src/command.rs`
(`KeyNotExist | NoExpire | Unknown(i64)`). -/
inductive TtlError where
  | keyNotExist
  | noExpire
  | unknown (x : Int)
  deriving DecidableEq, Repr

/-- `struct Ttl` of `src/command.rs`. -/
structure Ttl where
  key : String
  deriving DecidableEq, Repr

/-- `Ttl::into_request`: `resp_array!["TTL", self.key]`. -/
def Ttl.intoRequest (c : Ttl) : RespValue :=
  RespValue.array [bulk ("TTL"), bulk c.key]

/-- `Ttl::from_response` (`src/command.rs` lines 352-363), arm by arm:
`Integer(-2) → NoExpire`, `Integer(-1) → NoExpire`,
`Integer(x) if x < 0 → Unknown(x)`, `Integer(x) → Ok(x)`, otherwise a
protocol error. -/
def Ttl.fromResponse (res : RespValue) : Except RespError (Except TtlError Int) :=
  match res with
  | RespValue.integer x =>
    if x = -2 then Except.ok (Except.error TtlError.noExpire)
    else if x = -1 then Except.ok (Except.error TtlError.noExpire)
    else if x < 0 then Except.ok (Except.error (TtlError.unknown x))
    else Except.ok (Except.ok x)
  | res => Except.error (RespError.resp ("invalid response for TTL") (some res))

/-- `struct Pttl` of `src/command.rs`. -/
structure Pttl where
  key : String
  deriving DecidableEq, Repr

/-- `Pttl::into_request` (`src/command.rs` line 383): the source emits
`resp_array!["TTL", self.key]` — the literal is `TTL`, not `PTTL`. -/
def Pttl.intoRequest (c : Pttl) : RespValue :=
  RespValue.array [bulk ("TTL"), bulk c.key]

/-- `Pttl::from_response` (`src/command.rs` lines 386-397): identical
arms to `Ttl::from_response`, including the error message text. -/
def Pttl.fromResponse (res : RespValue) : Except RespError (Except TtlError Int) :=
  match res with
  | RespValue.integer x =>
    if x = -2 then Except.ok (Except.error TtlError.noExpire)
    else if x = -1 then Except.ok (Except.error TtlError.noExpire)
    else if x < 0 then Except.ok (Except.error (TtlError.unknown x))
    else Except.ok (Except.ok x)
  | res => Except.error (RespError.resp ("invalid response for TTL") (some res))

/-- A closed sum of command values (each constructor carries the record
embedded from `src/command.rs`), so that serialization can be compared
across distinct commands. -/
inductive CommandValue where
  | get (c : Get)
  | set (c : SetCmd)
  | del (c : Del)
  | ttl (c : Ttl)
  | pttl (c : Pttl)
  | asking
  deriving DecidableEq, Repr

/-- Dispatch of `Command::into_request` over the command sum. -/
def CommandValue.intoRequest : CommandValue → RespValue
  | CommandValue.get c => c.intoRequest
  | CommandValue.set c => c.intoRequest
  | CommandValue.del c => c.intoRequest
  | CommandValue.ttl c => c.intoRequest
  | CommandValue.pttl c => c.intoRequest
  | CommandValue.asking => Asking.intoRequest

/-- Models `u32::from_resp` of the `redis_async` dependency followed by
the source's `as u16` truncation being applied later: an `Integer` in
`u32` range converts, anything else is a conversion error. -/
def fromRespU32 (v : RespValue) : Except RespError Nat :=
  match v with
  | RespValue.integer i =>
    if 0 ≤ i ∧ i < 4294967296 then Except.ok i.toNat
    else Except.error (RespError.resp ("Cannot convert into an integer") (some v))
  | v => Except.error (RespError.resp ("Cannot convert into an integer") (some v))

/-- Models `i64::from_resp` of the `redis_async` dependency: an
`Integer` converts, anything else is a conversion error. -/
def fromRespI64 (v : RespValue) : Except RespError Int :=
  match v with
  | RespValue.integer i => Except.ok i
  | v => Except.error (RespError.resp ("Cannot convert into an integer") (some v))

/-- Models `String::from_resp` of the `redis_async` dependency: bulk and
simple strings convert, anything else is a conversion error. -/
def fromRespString (v : RespValue) : Except RespError String :=
  match v with
  | RespValue.bulkString s => Except.ok s
  | RespValue.simpleString s => Except.ok s
  | v => Except.error (RespError.resp ("Cannot convert into a string") (some v))

/-- `pub struct Slots` of `src/command.rs` (lines 188-195): a parsed
`CLUSTER SLOTS` entry.  Named `CommandSlots` to keep it apart from the
routing table's `Slots` record of `src/cluster.rs`. -/
structure CommandSlots where
  start : Nat
  stop : Nat
  nodes : List (String × Int × Option String)
  deriving DecidableEq, Repr

/-- One node subarray of a `CLUSTER SLOTS` entry
(`src/command.rs` lines 226-252): an `Array` of length at least 2 whose
first element is the address string and second the port; a third
element, when present and string-convertible, is the node id. -/
def parseNode (v : RespValue) : Except RespError (String × Int × Option String) :=
  match v with
  | RespValue.array node =>
    if node.length ≥ 2 then
      match node with
      | a :: p :: rest => do
        let addr ← fromRespString a
        let port ← fromRespI64 p
        let id :=
          match rest.head? with
          | some x => (fromRespString x).toOption
          | none => none
        Except.ok (addr, port, id)
      | _ =>
        Except.error
          (RespError.resp ("invalid response for CLUSTER SLOTS")
            (some (RespValue.array node)))
    else
      Except.error
        (RespError.resp ("invalid response for CLUSTER SLOTS")
          (some (RespValue.array node)))
  | v =>
    Except.error (RespError.resp ("invalid response for CLUSTER SLOTS") (some v))

/-- `parse_entry` of `ClusterSlots::from_response`
(`src/command.rs` lines 217-268): an entry must be an `Array` of length
at least 3 — start, end, and at least one node subarray; the two bounds
pass through `u32::from_resp(..)? as u16` (truncation modulo 65536). -/
def parseEntry (v : RespValue) : Except RespError CommandSlots :=
  match v with
  | RespValue.array values =>
    if values.length ≥ 3 then
      match values with
      | a :: b :: rest => do
        let start ← fromRespU32 a
        let stop ← fromRespU32 b
        let nodes ← rest.mapM parseNode
        Except.ok ⟨start % 65536, stop % 65536, nodes⟩
      | _ =>
        Except.error
          (RespError.resp ("invalid response for CLUSTER SLOTS")
            (some (RespValue.array values)))
    else
      Except.error
        (RespError.resp ("invalid response for CLUSTER SLOTS")
          (some (RespValue.array values)))
  | v =>
    Except.error (RespError.resp ("invalid response for CLUSTER SLOTS") (some v))

/-- `ClusterSlots::from_response` (`src/command.rs` lines 214-280): a
reply is an array of entries, parsed entry-wise; the first failing entry
fails the whole reply. -/
def ClusterSlots.fromResponse (res : RespValue) : Except RespError (List CommandSlots) :=
  match res with
  | RespValue.array inner => inner.mapM parseEntry
  | res =>
    Except.error (RespError.resp ("invalid response for CLUSTER SLOTS") (some res))

/-- Auxiliary: the linear scan of the slot table returns the first
matching range. -/
theorem findSlotMaster_append_first (pre : List Slots) (e : Slots) (post : List Slots)
    (s : Nat) (hpre : ∀ e2 ∈ pre, ¬(e2.start ≤ s ∧ s ≤ e2.stop))
    (h1 : e.start ≤ s) (h2 : s ≤ e.stop) :
    findSlotMaster (pre ++ e :: post) s = some e.masterAddr := by
  induction pre with
  | nil => simp [findSlotMaster, h1, h2]
  | cons x xs ih =>
    have hx : ¬(x.start ≤ s ∧ s ≤ x.stop) := hpre x (List.mem_cons_self x xs)
    simp only [List.cons_append, findSlotMaster, if_neg hx]
    exact ih (fun e2 h => hpre e2 (List.mem_cons_of_mem x h))

/-- Auxiliary: replacing the queue stored under `name` updates the
binding that `lookupNode` reads. -/
theorem lookupNode_setQueue_self (nodes : List (String × List Nat)) (name : String)
    (q2 : List Nat) (h : lookupNode nodes name ≠ none) :
    lookupNode (setQueue nodes name q2) name = some q2 := by
  induction nodes with
  | nil => simp [lookupNode] at h
  | cons p rest ih =>
    obtain ⟨n, q⟩ := p
    by_cases hn : n = name
    · subst hn; simp [setQueue, lookupNode]
    · simp only [setQueue, lookupNode, if_neg hn] at h ⊢
      exact ih h

/-- Auxiliary: replacing the queue stored under `name` leaves every
other binding unchanged. -/
theorem lookupNode_setQueue_other (nodes : List (String × List Nat)) (name other : String)
    (q2 : List Nat) (hne : other ≠ name) :
    lookupNode (setQueue nodes name q2) other = lookupNode nodes other := by
  induction nodes with
  | nil => simp [setQueue]
  | cons p rest ih =>
    obtain ⟨n, q⟩ := p
    by_cases hn : n = name
    · subst hn
      have hno : ¬ n = other := fun h => hne (h.symm)
      simp [setQueue, lookupNode, hno]
    · by_cases hno : n = other
      · subst hno; simp [setQueue, lookupNode, hn]
      · simp [setQueue, lookupNode, hn, hno, ih]

/-- Auxiliary: a conflicting key downstream makes the hasher fold fail
with the stored slot and the first conflicting slot. -/
theorem hashKeysFrom_conflict (keys : List String) (s : Nat)
    (h : ∃ k ∈ keys, slotOf k ≠ s) :
    ∃ s2, s2 ≠ s ∧ s2 ∈ keys.map slotOf ∧
      Del.hashKeysFrom keys ⟨some s⟩ = Except.error (HashError.multipleSlot [s, s2]) := by
  induction keys with
  | nil => obtain ⟨k, hk, _⟩ := h; simp at hk
  | cons k rest ih =>
    by_cases hk : slotOf k = s
    · have hrest : ∃ k2 ∈ rest, slotOf k2 ≠ s := by
        obtain ⟨k2, hmem, hne⟩ := h
        rcases List.mem_cons.mp hmem with hh | hmem2
        · subst hh; exact absurd hk hne
        · exact ⟨k2, hmem2, hne⟩
      obtain ⟨s2, hs2ne, hs2mem, heq⟩ := ih hrest
      refine ⟨s2, hs2ne, by simp [hs2mem], ?_⟩
      simp [Del.hashKeysFrom, Hasher.hashStr, Hasher.feed, hk, heq]
    · refine ⟨slotOf k, hk, by simp, ?_⟩
      have hns : ¬ s = slotOf k := fun hh => hk hh.symm
      simp [Del.hashKeysFrom, Hasher.hashStr, Hasher.feed, hns]

/-- Claim C1, counterexample.  The claim says that once the redirect
bound is exceeded the redirect error is returned to the caller instead
of being retried, for MOVED and ASK alike.  At `retry = MAX_RETRY` an
`ASK` redirect is still retried by the code (the ASK arm of
`Handler<RawRequest<M>>::handle` carries no retry guard), instead of
finishing with the server error. -/
theorem C1_counterexample :
    handleRawResult (RespValue.array []) MAX_RETRY
        (Except.ok (RespValue.error "ASK 1000 127.0.0.1:7001"))
      = RetryStep.askRetry "127.0.0.1:7001" (RespValue.array []) MAX_RETRY MAX_RETRY := rfl

/-- Claim C1, amended: MOVED redirects are recovered locally only while
`retry < MAX_RETRY = 16` — a MOVED arriving with the bound reached is
surfaced verbatim — while ASK redirects are retried regardless of the
retry counter (and without incrementing it), so ASK chains are not
bounded by `MAX_RETRY`. -/
theorem C1_bound (req : RespValue) (e : String) (retry : Nat) :
    (strStartsWith e ("MOVED") = true → retry < MAX_RETRY →
       handleRawResult req retry (Except.ok (RespValue.error e))
         = RetryStep.movedRetry (redirectTarget e) req (retry + 1))
  ∧ (strStartsWith e ("MOVED") = true → MAX_RETRY ≤ retry →
       strStartsWith e ("ASK") = false →
       handleRawResult req retry (Except.ok (RespValue.error e))
         = RetryStep.finish (RespValue.error e))
  ∧ (strStartsWith e ("ASK") = true → strStartsWith e ("MOVED") = false →
       handleRawResult req retry (Except.ok (RespValue.error e))
         = RetryStep.askRetry (redirectTarget e) req retry retry) := by
  refine ⟨?_, ?_, ?_⟩
  · intro hM hlt
    simp [handleRawResult, hM, hlt]
  · intro hM hge hA
    have hnlt : ¬ retry < MAX_RETRY := Nat.not_lt.mpr hge
    simp [handleRawResult, hM, hA, hnlt]
  · intro hA hM
    simp [handleRawResult, hA, hM]

/-- Claim C1, witness: a MOVED redirect arriving with `retry = 16` is
surfaced to the caller. -/
theorem C1_bound_witness :
    handleRawResult (RespValue.array []) 16
        (Except.ok (RespValue.error "MOVED 1000 127.0.0.1:7001"))
      = RetryStep.finish (RespValue.error "MOVED 1000 127.0.0.1:7001") :=
  (C1_bound (RespValue.array []) "MOVED 1000 127.0.0.1:7001" 16).2.1 rfl
    (by decide) rfl

/-- Claim C3, counterexample.  The claim says the spawned `ASKING`
request carries `attempt = MAX_RETRY` and the original frame is re-sent
with `attempt + 1`.  On an ASK redirect at `retry = 0` the code spawns
the `ASKING` request with retry counter `0` (not `MAX_RETRY`) and
re-sends the original frame with retry counter `0` (not `1`). -/
theorem C3_counterexample :
    (handleRawResult (RespValue.array [bulk ("GET"), bulk ("k")]) 0
        (Except.ok (RespValue.error "ASK 1000 127.0.0.1:7001"))
      = RetryStep.askRetry "127.0.0.1:7001"
          (RespValue.array [bulk ("GET"), bulk ("k")]) 0 0)
  ∧ (0 : Nat) ≠ MAX_RETRY ∧ (0 : Nat) ≠ 0 + 1 :=
  ⟨rfl, by decide, by decide⟩

/-- Claim C3, amended: on an ASK redirect (at any attempt count — the
ASK arm has no retry guard) the router opens a connection to the
redirect target if absent, spawns a fire-and-forget `ASKING` command to
that target carrying the current attempt value unchanged, and re-sends
the original frame to the target with the same, unincremented attempt
value. -/
theorem C3_ask_step (req : RespValue) (e : String) (retry : Nat)
    (hA : strStartsWith e ("ASK") = true)
    (hM : strStartsWith e ("MOVED") = false) :
    handleRawResult req retry (Except.ok (RespValue.error e))
      = RetryStep.askRetry (redirectTarget e) req retry retry := by
  simp [handleRawResult, hA, hM]

/-- Claim C3, witness: an ASK redirect at `retry = 5` re-targets
`127.0.0.1:7001`, spawning `ASKING` with counter 5 and re-sending the
original frame with counter 5. -/
theorem C3_ask_step_witness :
    handleRawResult (RespValue.array [bulk ("GET"), bulk ("k")]) 5
        (Except.ok (RespValue.error "ASK 1000 127.0.0.1:7001"))
      = RetryStep.askRetry "127.0.0.1:7001"
          (RespValue.array [bulk ("GET"), bulk ("k")]) 5 5 :=
  C3_ask_step (RespValue.array [bulk ("GET"), bulk ("k")])
    "ASK 1000 127.0.0.1:7001" 5 rfl rfl

/-- Claim C2, counterexample.  The claim says a command whose slot lies
in no table range fails `NotConnected`, and a slot-less command goes to
the initial address.  With an empty slot table, a registry holding nodes
`"b"` and `"a"` (initial address `"a"`), and the sampler picking the
first key, the command is routed to `"b"` — a random connected node,
neither a failure nor the initial address. -/
theorem C2_counterexample :
    (handleCommand ⟨["a"], [("b", []), ("a", [])], true, []⟩ (Except.ok (some 0))
        (RespValue.array []) List.head?
      = DispatchResult.send "b" (RespValue.array []) 0)
  ∧ DispatchResult.send "b" (RespValue.array []) 0
      ≠ DispatchResult.fail Error.notConnected := by
  refine ⟨rfl, ?_⟩
  intro h
  cases h

/-- Claim C2, amended: for a computed slot `Some s` the router linearly
scans the slot table and routes to the master of the first range
containing `s`; if no range contains `s`, or the computed slot is
`None`, it routes to a random connected node (`random_node_addr`); the
command fails `NotConnected` exactly when the connection registry is
empty.  The sampler `rnd` is constrained to the semantics of
`rand::seq::sample_iter`: some member on a nonempty list, `none` on the
empty list. -/
theorem C2_dispatch (st : RedisClusterActor) (req : RespValue) (s : Nat)
    (rnd : List String → Option String)
    (hnil : rnd [] = none)
    (hmem : ∀ l, l ≠ [] → ∃ x ∈ l, rnd l = some x) :
    (∀ pre e post, st.slots = pre ++ e :: post →
        (∀ e2 ∈ pre, ¬(e2.start ≤ s ∧ s ≤ e2.stop)) → e.start ≤ s → s ≤ e.stop →
        handleCommand st (Except.ok (some s)) req rnd
          = DispatchResult.send e.masterAddr req 0)
  ∧ (findSlotMaster st.slots s = none → st.nodes = [] →
        handleCommand st (Except.ok (some s)) req rnd
          = DispatchResult.fail Error.notConnected)
  ∧ (findSlotMaster st.slots s = none → st.nodes ≠ [] →
        ∃ a ∈ st.nodes.map Prod.fst,
          handleCommand st (Except.ok (some s)) req rnd
            = DispatchResult.send a req 0)
  ∧ (st.nodes ≠ [] →
        ∃ a ∈ st.nodes.map Prod.fst,
          handleCommand st (Except.ok none) req rnd = DispatchResult.send a req 0)
  ∧ (st.nodes = [] →
        handleCommand st (Except.ok none) req rnd
          = DispatchResult.fail Error.notConnected) := by
  refine ⟨?_, ?_, ?_, ?_, ?_⟩
  · intro pre e post hslots hpre h1 h2
    have hf : findSlotMaster st.slots s = some e.masterAddr := by
      rw [hslots]
      exact findSlotMaster_append_first pre e post s hpre h1 h2
    simp [handleCommand, chooseNodeAddr, hf]
  · intro hf hn
    simp [handleCommand, chooseNodeAddr, randomNodeAddr, hf, hn, hnil]
  · intro hf hn
    have hmap : st.nodes.map Prod.fst ≠ [] := by simpa using hn
    obtain ⟨a, ha, hr⟩ := hmem _ hmap
    exact ⟨a, ha, by simp [handleCommand, chooseNodeAddr, randomNodeAddr, hf, hr]⟩
  · intro hn
    have hmap : st.nodes.map Prod.fst ≠ [] := by simpa using hn
    obtain ⟨a, ha, hr⟩ := hmem _ hmap
    exact ⟨a, ha, by simp [handleCommand, chooseNodeAddr, randomNodeAddr, hr]⟩
  · intro hn
    simp [handleCommand, chooseNodeAddr, randomNodeAddr, hn, hnil]

/-- Claim C2, witness: with a table mapping slots 0-100 to master
`"m1"`, a slot-5 command is sent to `"m1"` with retry counter 0. -/
theorem C2_dispatch_witness :
    handleCommand ⟨["127.0.0.1:7000"], [("127.0.0.1:7000", [])], true, [⟨0, 100, "m1"⟩]⟩
        (Except.ok (some 5)) (RespValue.array []) List.head?
      = DispatchResult.send "m1" (RespValue.array []) 0 :=
  (C2_dispatch ⟨["127.0.0.1:7000"], [("127.0.0.1:7000", [])], true, [⟨0, 100, "m1"⟩]⟩
      (RespValue.array []) 5 List.head? rfl
      (fun l hl => by
        cases l with
        | nil => exact absurd rfl hl
        | cons x xs => exact ⟨x, List.mem_cons_self x xs, rfl⟩)).1
    [] ⟨0, 100, "m1"⟩ [] rfl (by simp) (by decide) (by decide)

/-- Claim C4, counterexample.  The claim says the supervised restart
hook clears both the slot table and the connection registry; the
`restarting` hook of the source clears only the registry
(`self.nodes.clear()`), so a nonempty slot table survives a restart. -/
theorem C4_counterexample :
    (restarting ⟨["a"], [("a", [3])], false, [⟨0, 100, "a"⟩]⟩).slots
        = [⟨0, 100, "a"⟩]
  ∧ ([⟨0, 100, "a"⟩] : List Slots) ≠ []
  ∧ (restarting ⟨["a"], [("a", [3])], false, [⟨0, 100, "a"⟩]⟩).nodes = [] := by
  refine ⟨rfl, ?_, rfl⟩
  intro h
  cases h

/-- Claim C4, amended: on supervised restart only the connection
registry is cleared (every child connection is dropped, which fails any
in-flight waiters); the slot table, the seed addresses and the staleness
flag are all retained, and the startup sequence then re-runs on the
retained state. -/
theorem C4_restart (st : RedisClusterActor) :
    (restarting st).nodes = [] ∧ (restarting st).slots = st.slots
  ∧ (restarting st).addrs = st.addrs
  ∧ (restarting st).staleSlots = st.staleSlots :=
  ⟨rfl, rfl, rfl, rfl⟩

/-- Claim C5: the code maps `Integer(-2)` to the `NoExpire` error for
both `TTL` and `PTTL`, while the claim (and the `TtlError` taxonomy
itself, whose `KeyNotExist` variant is never constructed anywhere in the
source) requires `KeyNotExist`.  The remaining arms agree with the
claim: `-1 → NoExpire`, other negatives → `Unknown`, non-negatives →
`Ok`, non-integers → protocol error. -/
theorem C5_ttl_eval :
    Ttl.fromResponse (RespValue.integer (-2)) = Except.ok (Except.error TtlError.noExpire)
  ∧ Pttl.fromResponse (RespValue.integer (-2)) = Except.ok (Except.error TtlError.noExpire)
  ∧ TtlError.noExpire ≠ TtlError.keyNotExist
  ∧ Ttl.fromResponse (RespValue.integer (-1)) = Except.ok (Except.error TtlError.noExpire)
  ∧ Ttl.fromResponse (RespValue.integer (-3))
      = Except.ok (Except.error (TtlError.unknown (-3)))
  ∧ Ttl.fromResponse (RespValue.integer 7) = Except.ok (Except.ok 7)
  ∧ Ttl.fromResponse RespValue.nil
      = Except.error (RespError.resp ("invalid response for TTL") (some RespValue.nil)) :=
  ⟨rfl, rfl, by decide, rfl, rfl, rfl, rfl⟩

/-- Claim C6: the round-trip law `parse(serialize(cmd)) == cmd` cannot
hold because serialization is not injective: `Pttl::into_request` emits
the literal `TTL` (`src/command.rs` line 383), so `Pttl` and `Ttl` over
the same key serialize to the identical frame `["TTL", key]`, which is
not command-identifying. -/
theorem C6_pttl_eval :
    CommandValue.intoRequest (CommandValue.pttl ⟨"k"⟩)
      = CommandValue.intoRequest (CommandValue.ttl ⟨"k"⟩)
  ∧ CommandValue.pttl ⟨"k"⟩ ≠ CommandValue.ttl ⟨"k"⟩
  ∧ Pttl.intoRequest ⟨"k"⟩ = RespValue.array [bulk ("TTL"), bulk ("k")] :=
  ⟨rfl, by decide, rfl⟩

/-- Claim C7: a `Del` whose keys hash to two or more distinct slots is
failed immediately by the dispatch handler with `MultipleSlot` listing
two offending (distinct) slot numbers of the key set, and no request
frame is sent to any node (the handler returns the failure instead of a
`send` action). -/
theorem C7_multislot (st : RedisClusterActor) (rnd : List String → Option String)
    (keys : List String) (k1 k2 : String)
    (h1 : k1 ∈ keys) (h2 : k2 ∈ keys) (hne : slotOf k1 ≠ slotOf k2) :
    ∃ s1 s2, s1 ≠ s2 ∧ s1 ∈ keys.map slotOf ∧ s2 ∈ keys.map slotOf ∧
      Del.keySlot ⟨keys⟩ = Except.error (HashError.multipleSlot [s1, s2]) ∧
      handleCommand st (Del.keySlot ⟨keys⟩) (Del.intoRequest ⟨keys⟩) rnd
        = DispatchResult.fail (Error.multipleSlot (HashError.multipleSlot [s1, s2])) := by
  cases keys with
  | nil => simp at h1
  | cons k rest =>
    have hconf : ∃ kk ∈ rest, slotOf kk ≠ slotOf k := by
      by_cases hk1 : slotOf k1 = slotOf k
      · have hk2 : slotOf k2 ≠ slotOf k := by
          rw [← hk1]
          exact fun hh => hne hh.symm
        have hmem : k2 ∈ rest := by
          rcases List.mem_cons.mp h2 with hh | hm
          · subst hh; exact absurd rfl hk2
          · exact hm
        exact ⟨k2, hmem, hk2⟩
      · have hmem : k1 ∈ rest := by
          rcases List.mem_cons.mp h1 with hh | hm
          · subst hh; exact absurd rfl hk1
          · exact hm
        exact ⟨k1, hmem, hk1⟩
    obtain ⟨s2, hs2ne, hs2mem, heq⟩ := hashKeysFrom_conflict rest (slotOf k) hconf
    have hks : Del.keySlot ⟨k :: rest⟩
        = Except.error (HashError.multipleSlot [slotOf k, s2]) := by
      simp [Del.keySlot, Del.hashKeysFrom, Hasher.hashStr, Hasher.feed, Hasher.new, heq]
    refine ⟨slotOf k, s2, fun hh => hs2ne hh.symm, by simp, by simp [hs2mem], hks, ?_⟩
    simp [handleCommand, hks]

/-- Claim C7, witness: `Del { keys: ["a", "b"] }` — slots 15495 and 3300
— is rejected with `MultipleSlot` and nothing is enqueued. -/
theorem C7_multislot_witness :
    ∃ s1 s2, s1 ≠ s2 ∧ s1 ∈ (["a", "b"] : List String).map slotOf
  ∧ s2 ∈ (["a", "b"] : List String).map slotOf
  ∧ Del.keySlot ⟨["a", "b"]⟩ = Except.error (HashError.multipleSlot [s1, s2])
  ∧ handleCommand ⟨[], [], true, []⟩ (Del.keySlot ⟨["a", "b"]⟩)
        (Del.intoRequest ⟨["a", "b"]⟩) (fun _ => none)
      = DispatchResult.fail (Error.multipleSlot (HashError.multipleSlot [s1, s2])) :=
  C7_multislot ⟨[], [], true, []⟩ (fun _ => none) ["a", "b"] "a" "b"
    (by simp) (by simp) (by decide)

/-- Claim C8: the state update applied at the completion of
`retrieve_cluster_slots` is atomic with respect to the slot table: a
successful `CLUSTER SLOTS` result replaces the whole table with the
ranges built from the reply (first listed address of each nonempty entry
as master, empty entries dropped) and clears the staleness flag, while
any failure leaves the actor state — in particular the prior table —
completely unchanged; in both cases nothing is returned to any caller
(failures are logged and swallowed). -/
theorem C8_refresh_atomic (st : RedisClusterActor)
    (res : Except Error (List (Nat × Nat × List String))) :
    (∀ v, res = Except.ok v →
        applyRefresh st res
          = { st with staleSlots := false, slots := clusterSlotsTable v })
  ∧ (∀ e, res = Except.error e → applyRefresh st res = st) := by
  constructor
  · rintro v rfl; rfl
  · rintro e rfl; rfl

/-- Claim C8, witness: a failing refresh leaves a concrete prior state
untouched, and a successful refresh installs exactly the parsed table. -/
theorem C8_refresh_atomic_witness :
    applyRefresh ⟨["a"], [], true, [⟨0, 1, "old"⟩]⟩ (Except.error Error.disconnected)
      = ⟨["a"], [], true, [⟨0, 1, "old"⟩]⟩
  ∧ applyRefresh ⟨["a"], [], true, [⟨0, 1, "old"⟩]⟩
        (Except.ok [(0, 100, ["m1", "r1"]), (101, 200, []), (201, 300, ["m2"])])
      = ⟨["a"], [], false, [⟨0, 100, "m1"⟩, ⟨201, 300, "m2"⟩]⟩ :=
  ⟨(C8_refresh_atomic ⟨["a"], [], true, [⟨0, 1, "old"⟩]⟩
        (Except.error Error.disconnected)).2 Error.disconnected rfl,
   (C8_refresh_atomic ⟨["a"], [], true, [⟨0, 1, "old"⟩]⟩
        (Except.ok [(0, 100, ["m1", "r1"]), (101, 200, []), (201, 300, ["m2"])])).1
      [(0, 100, ["m1", "r1"]), (101, 200, []), (201, 300, ["m2"])] rfl⟩

/-- Claim C9, counterexample.  The claim says a `CLUSTER SLOTS` entry
with zero nodes is skipped, contributing no slot range and causing no
error.  At the wire level an entry with zero node subarrays is a
2-element array, and `parse_entry` requires at least 3 elements, so the
entry is rejected and the whole reply fails with a protocol error
instead of being skipped. -/
theorem C9_counterexample :
    ClusterSlots.fromResponse
        (RespValue.array [RespValue.array [RespValue.integer 0, RespValue.integer 5]])
      = Except.error
          (RespError.resp ("invalid response for CLUSTER SLOTS")
            (some (RespValue.array [RespValue.integer 0, RespValue.integer 5]))) := rfl

/-- Claim C9, amended: a `CLUSTER SLOTS` entry with zero node subarrays
has fewer than three elements and is rejected by `parse_entry`, failing
the whole reply (the error is then swallowed by the refresh logic, which
keeps the prior table); the post-parse filter that skips entries with an
empty address list exists in `retrieve_cluster_slots` and would drop
such an entry without error.  Node subarrays with at least 2 elements
are accepted, the third element (node id) being optional. -/
theorem C9_entry_parse (s e : Int) (h : String) (p : Int) (i : String)
    (hs0 : 0 ≤ s) (hs1 : s < 4294967296) (he0 : 0 ≤ e) (he1 : e < 4294967296) :
    (parseEntry (RespValue.array [RespValue.integer s, RespValue.integer e])
       = Except.error
           (RespError.resp ("invalid response for CLUSTER SLOTS")
             (some (RespValue.array [RespValue.integer s, RespValue.integer e]))))
  ∧ (parseEntry (RespValue.array [RespValue.integer s, RespValue.integer e,
        RespValue.array [bulk h, RespValue.integer p]])
       = Except.ok ⟨s.toNat % 65536, e.toNat % 65536, [(h, p, none)]⟩)
  ∧ (parseEntry (RespValue.array [RespValue.integer s, RespValue.integer e,
        RespValue.array [bulk h, RespValue.integer p, bulk i]])
       = Except.ok ⟨s.toNat % 65536, e.toNat % 65536, [(h, p, some i)]⟩)
  ∧ (parseEntry (RespValue.array [RespValue.integer s, RespValue.integer e,
        RespValue.array [bulk h]])).isOk = false
  ∧ clusterSlotsTable [(0, 5, [])] = [] := by
  refine ⟨?_, ?_, ?_, ?_, rfl⟩
  · simp [parseEntry]
  · simp [parseEntry, parseNode, fromRespU32, fromRespI64, fromRespString,
      hs0, hs1, he0, he1, List.mapM, List.mapM.loop, bulk, Except.bind, bind,
      pure, Except.pure, Except.toOption]
  · simp [parseEntry, parseNode, fromRespU32, fromRespI64, fromRespString,
      hs0, hs1, he0, he1, List.mapM, List.mapM.loop, bulk, Except.bind, bind,
      pure, Except.pure, Except.toOption]
  · simp [parseEntry, parseNode, fromRespU32, fromRespI64, fromRespString,
      hs0, hs1, he0, he1, List.mapM, List.mapM.loop, bulk, Except.bind, bind,
      Except.isOk, Except.toBool]

/-- Claim C9, witness: a concrete entry `[0, 5]` is rejected, concrete
entries with 2- and 3-element node subarrays parse (id optional), and a
parsed empty-node entry is dropped by the refresh filter. -/
theorem C9_entry_parse_witness :
    (parseEntry (RespValue.array [RespValue.integer 0, RespValue.integer 5])
       = Except.error
           (RespError.resp ("invalid response for CLUSTER SLOTS")
             (some (RespValue.array [RespValue.integer 0, RespValue.integer 5]))))
  ∧ (parseEntry (RespValue.array [RespValue.integer 0, RespValue.integer 5,
        RespValue.array [bulk ("127.0.0.1"), RespValue.integer 7000]])
       = Except.ok ⟨0, 5, [("127.0.0.1", 7000, none)]⟩)
  ∧ (parseEntry (RespValue.array [RespValue.integer 0, RespValue.integer 5,
        RespValue.array [bulk ("127.0.0.1"), RespValue.integer 7000, bulk ("id1")]])
       = Except.ok ⟨0, 5, [("127.0.0.1", 7000, some "id1")]⟩)
  ∧ (parseEntry (RespValue.array [RespValue.integer 0, RespValue.integer 5,
        RespValue.array [bulk ("127.0.0.1")]])).isOk = false
  ∧ clusterSlotsTable [(0, 5, [])] = [] :=
  C9_entry_parse 0 5 "127.0.0.1" 7000 "id1" (by decide) (by decide) (by decide) (by decide)

/-- Claim C10: for an inbound reply frame from a node, exactly the head
waiter of that node's in-flight FIFO queue is removed and resolved with
the frame — the node's queue becomes its tail and every other node's
queue is untouched — while an empty queue or an unknown node leaves the
whole state unchanged and resolves nothing (the frame is only logged). -/
theorem C10_inbound (st : RedisClusterActor) (name : String) (res : RespValue) :
    (∀ tx rest, lookupNode st.nodes name = some (tx :: rest) →
        streamHandle st name res
          = ({ st with nodes := setQueue st.nodes name rest }, some (tx, res))
      ∧ lookupNode (setQueue st.nodes name rest) name = some rest
      ∧ ∀ other, other ≠ name →
          lookupNode (setQueue st.nodes name rest) other = lookupNode st.nodes other)
  ∧ (lookupNode st.nodes name = some [] → streamHandle st name res = (st, none))
  ∧ (lookupNode st.nodes name = none → streamHandle st name res = (st, none)) := by
  refine ⟨?_, ?_, ?_⟩
  · intro tx rest hq
    refine ⟨by simp [streamHandle, hq], ?_, ?_⟩
    · exact lookupNode_setQueue_self st.nodes name rest (by simp [hq])
    · intro other hne
      exact lookupNode_setQueue_other st.nodes name other rest hne
  · intro hq
    simp [streamHandle, hq]
  · intro hq
    simp [streamHandle, hq]

/-- Claim C10, witness: with node `"n"` holding waiters `[7, 8]` and
node `"m"` holding `[9]`, a frame from `"n"` resolves waiter 7 with the
frame, leaves `"n"` with queue `[8]`, and leaves `"m"` untouched; a
frame from unknown node `"x"` changes nothing. -/
theorem C10_inbound_witness :
    streamHandle ⟨[], [("n", [7, 8]), ("m", [9])], false, []⟩ "n" RespValue.nil
      = (⟨[], [("n", [8]), ("m", [9])], false, []⟩, some (7, RespValue.nil))
  ∧ streamHandle ⟨[], [("n", [7, 8]), ("m", [9])], false, []⟩ "x" RespValue.nil
      = (⟨[], [("n", [7, 8]), ("m", [9])], false, []⟩, none) :=
  ⟨((C10_inbound ⟨[], [("n", [7, 8]), ("m", [9])], false, []⟩ "n" RespValue.nil).1
      7 [8] rfl).1,
   (C10_inbound ⟨[], [("n", [7, 8]), ("m", [9])], false, []⟩ "x" RespValue.nil).2.2 rfl⟩
